import Mathlib

/-!
Shallow embedding of `lib/rest-model.js` (loopback-connector-rest-with-options).

The file models the JavaScript values the module manipulates, the response
normalizer `wrap`, the `RestResource` constructor, its CRUD methods
(`create`, `update`, `delete`, `deleteAll`, `find`, `query`/`all`) and the
load-time `defineFunctions` check, and proves theorems about them.

Each CRUD method in the source builds a request-descriptor object literal and
hands it, together with `wrap(cb)`, to the external transport entry point
`this._request` (defined in `rest-builder.js`, outside this module).  The
embedding therefore models each method as returning the pair
(request descriptor, callback value) that the method passes to `_request`.
-/

namespace RestModelJs

mutual

/-- JavaScript runtime values, as far as this module inspects them:
`undefined`, `null`, booleans, numbers (modelled as integers — the module
only compares status codes), strings, plain objects (ordered key/value
fields), and functions (opaque, identified by a tag; the module only tests
`typeof x === 'function'` and truthiness on them). -/
inductive JSValue where
  | undef : JSValue
  | nullv : JSValue
  | bool (b : Bool) : JSValue
  | num (n : Int) : JSValue
  | str (s : String) : JSValue
  | obj (fields : JSFields) : JSValue
  | fn (tag : Nat) : JSValue
deriving DecidableEq, Repr

/-- The ordered field list of a JavaScript object. -/
inductive JSFields where
  | nil : JSFields
  | cons (key : String) (val : JSValue) (rest : JSFields) : JSFields
deriving DecidableEq, Repr

end

/-- JavaScript truthiness: `undefined`, `null`, `false`, `0` and `""` are
falsy; every object and every function is truthy. -/
def truthy : JSValue → Bool
  | .undef => false
  | .nullv => false
  | .bool b => b
  | .num n => n != 0
  | .str s => s != ""
  | .obj _ => true
  | .fn _ => true

/-- JavaScript `typeof x === 'function'`. -/
def isFunction : JSValue → Bool
  | .fn _ => true
  | _ => false

/-- JavaScript `a && b`: `b` if `a` is truthy, otherwise `a` itself. -/
def jsAnd (a b : JSValue) : JSValue :=
  if truthy a then b else a

/-- JavaScript string coercion `String(v)`, used by `'/' + id` in the source.
Function source text is abstracted to the fixed string `"function"` (no
theorem depends on it). -/
def jsToString : JSValue → String
  | .undef => "undefined"
  | .nullv => "null"
  | .bool b => cond b "true" "false"
  | .num n => toString n
  | .str s => s
  | .obj _ => "[object Object]"
  | .fn _ => "function"

mutual

/-- `JSON.stringify` as a partial string result: `none` for `undefined` and
functions (which `JSON.stringify` maps to `undefined`), `some` of the JSON
text otherwise. -/
def jsonStr : JSValue → Option String
  | .undef => none
  | .fn _ => none
  | .nullv => some "null"
  | .bool b => some (cond b "true" "false")
  | .num n => some (toString n)
  | .str s => some ("\x22" ++ s ++ "\x22")
  | .obj fields => some ("\x7b" ++ String.intercalate "," (jsonPairs fields) ++ "\x7d")

/-- Serialized `"key":value` pairs of an object, skipping fields whose value
serializes to `undefined`, as `JSON.stringify` does. -/
def jsonPairs : JSFields → List String
  | .nil => []
  | .cons k v rest =>
    match jsonStr v with
    | none => jsonPairs rest
    | some s => ("\x22" ++ k ++ "\x22:" ++ s) :: jsonPairs rest

end

/-- `JSON.stringify` at the JS-value level: `undefined` for unserializable
values, a string value otherwise. -/
def jsonStringify (v : JSValue) : JSValue :=
  match jsonStr v with
  | none => .undef
  | some s => .str s

/-! ### The response normalizer `wrap` -/

/-- The transport's response object, when one is delivered: it exposes
`statusCode` (a number) and `headers` (a JS value; `undefined` when the
transport attached none). A transport invocation where `response` itself is
falsy (absent) is modelled by `Option.none` at the call sites of `wrapped`. -/
structure JSResponse where
  statusCode : Int
  headers : JSValue
deriving DecidableEq, Repr

/-- The error object `wrap` synthesizes for an HTTP status ≥ 400:
`new Error()` with `message` and `statusCode` always set, and `body` /
`headers` fields that are attached only when the corresponding `if` in the
source fires (`Option.none` models the field being left off the object). -/
structure ErrObj where
  message : String
  statusCode : Int
  body : Option JSValue
  headers : Option JSValue
deriving DecidableEq, Repr

/-- The error slot of the triple delivered to the caller: either the
transport's own error value passed through unchanged, or the synthesized
HTTP-status error object. -/
inductive ErrVal where
  | js (v : JSValue) : ErrVal
  | http (e : ErrObj) : ErrVal
deriving DecidableEq, Repr

/-- The `(error, result, response)` triple that the wrapped callback hands to
the caller's continuation `cb`. The `result` slot is a JS value (`.nullv`
models the literal `null` the source passes in the error branch). -/
structure Envelope where
  error : ErrVal
  result : JSValue
  response : Option JSResponse
deriving DecidableEq, Repr

/-- The body of the callback that `wrap` builds around a present `cb`
(`rest-model.js` lines 53–69): the transport invokes it with
`(err, response, body)`; if `err` is falsy, `response` is truthy and
`response.statusCode >= 400` it synthesizes an error object and invokes
`cb(errObj, null, response)`; otherwise it invokes `cb(err, body, response)`. -/
def wrapped (err : JSValue) (response : Option JSResponse) (body : JSValue) :
    Envelope :=
  match response with
  | some r =>
    if truthy err = false ∧ 400 ≤ r.statusCode then
      { error := .http
          { message := "HTTP code: " ++ toString r.statusCode
            statusCode := r.statusCode
            body := if truthy body then some body else none
            headers := if truthy r.headers then some r.headers else none }
        result := .nullv
        response := some r }
    else
      { error := .js err, result := body, response := some r }
  | none =>
    { error := .js err, result := body, response := none }

/-- `wrap(cb)` (`rest-model.js` lines 50–72): when `cb` is absent (falsy) it
is returned unchanged and no wrapping happens; when present, the returned
function feeds every transport outcome through `wrapped` before invoking
`cb`. The continuation is modelled as a Lean function on envelopes. -/
def wrap {α : Type} (cb : Option (Envelope → α)) :
    Option (JSValue → Option JSResponse → JSValue → α) :=
  match cb with
  | none => none
  | some f => some (fun err response body => f (wrapped err response body))

/-! ### `RestResource` and its CRUD methods -/

/-- A `RestResource` instance after construction: the source stores only the
collection URL `this._url` (the transport reference `this.request` is
external glue and carries no logic of its own). -/
structure RestResource where
  url : String
deriving DecidableEq, Repr

/-- The `RestResource` constructor's URL computation (`rest-model.js` lines
29–33): if the last character of `baseUrl` is `'/'` the model name is
appended directly, otherwise a `'/'` is inserted.  `String.takeRight 1`
models `baseUrl.charAt(baseUrl.length - 1)` (both give `""` on the empty
string). -/
def RestResource.make (pluralModelName baseUrl : String) : RestResource :=
  if baseUrl.takeRight 1 = "/" then
    { url := baseUrl ++ pluralModelName }
  else
    { url := baseUrl ++ "/" ++ pluralModelName }

/-- The request-descriptor object literal each CRUD method builds and passes
to `this._request`.  `qs` and `body` are `Option`s because the source's
object literals include those keys only in some methods; the `headers`
literal is always `{options: ...}`, so `headers` is the ordered field list
actually constructed. -/
structure RequestDescriptor where
  method : String
  uri : String
  json : Bool
  qs : Option (List (String × JSValue))
  body : Option JSValue
  headers : List (String × JSValue)
deriving DecidableEq, Repr

/-- The `options` header value every method computes:
`options && JSON.stringify(options)`. -/
def optionsHeader (options : JSValue) : JSValue :=
  jsAnd options (jsonStringify options)

/-- `create(body, options, cb)` (`rest-model.js` lines 80–93): POST to the
collection URL with `body` as JSON payload; returns the
(descriptor, callback) pair handed to `this._request(…, wrap(cb))`. -/
def create (self : RestResource) (body options cb : JSValue) :
    RequestDescriptor × JSValue :=
  ({ method := "POST"
     uri := self.url
     json := true
     qs := none
     body := some body
     headers := [("options", optionsHeader options)] }, cb)

/-- `update(id, body, options, cb)` (`rest-model.js` lines 102–115): PUT to
`this._url + '/' + id` (string coercion of `id`, whatever it is). -/
def update (self : RestResource) (id body options cb : JSValue) :
    RequestDescriptor × JSValue :=
  ({ method := "PUT"
     uri := self.url ++ "/" ++ jsToString id
     json := true
     qs := none
     body := some body
     headers := [("options", optionsHeader options)] }, cb)

/-- `delete(id, options, cb)` (`rest-model.js` lines 123–135): DELETE to
`this._url + '/' + id`. -/
def delete (self : RestResource) (id options cb : JSValue) :
    RequestDescriptor × JSValue :=
  ({ method := "DELETE"
     uri := self.url ++ "/" ++ jsToString id
     json := true
     qs := none
     body := none
     headers := [("options", optionsHeader options)] }, cb)

/-- `deleteAll(options, cb)` (`rest-model.js` lines 143–155): DELETE to the
collection URL. -/
def deleteAll (self : RestResource) (options cb : JSValue) :
    RequestDescriptor × JSValue :=
  ({ method := "DELETE"
     uri := self.url
     json := true
     qs := none
     body := none
     headers := [("options", optionsHeader options)] }, cb)

/-- `find(id, filter, options, cb)` (`rest-model.js` lines 163–176): GET to
`this._url + (id ? '/' + id : '')` with `qs: {filter: filter}`. -/
def find (self : RestResource) (id filter options cb : JSValue) :
    RequestDescriptor × JSValue :=
  ({ method := "GET"
     uri := self.url ++ (if truthy id then "/" ++ jsToString id else "")
     json := true
     qs := some [("filter", filter)]
     body := none
     headers := [("options", optionsHeader options)] }, cb)

/-- The argument rewriting at the top of `query` (`rest-model.js` lines
185–189): `q = q || {}`, then, if `cb` is falsy and `options` is a function,
`cb = options; q = {}` — note that `options` itself is left holding the
function and `q` is reset to a fresh empty object.  Returns the effective
`(q, options, cb)` triple the rest of the method uses. -/
def queryEffective (q options cb : JSValue) :
    JSValue × JSValue × JSValue :=
  let q1 := if truthy q then q else .obj .nil
  if truthy cb = false ∧ isFunction options = true then
    (.obj .nil, options, options)
  else
    (q1, options, cb)

/-- `query(q, options, cb)` — also exported as `all` (`rest-model.js` lines
184–202): GET to the collection URL with `qs: {filter: q}` after the
argument rewriting of `queryEffective`; the second component is the
effective callback value handed to `wrap`. -/
def query (self : RestResource) (q options cb : JSValue) :
    RequestDescriptor × JSValue :=
  let eff := queryEffective q options cb
  ({ method := "GET"
     uri := self.url
     json := true
     qs := some [("filter", eff.1)]
     body := none
     headers := [("options", optionsHeader eff.2.1)] }, eff.2.2)

/-! ### `defineFunctions` -/

/-- One entry of the operation spec's `operations` array: the source reads
only its `template` and `functions` properties, modelled as JS values
(`.undef` when the property is missing). -/
structure Operation where
  template : JSValue
  functions : JSValue
deriving DecidableEq, Repr

/-- The operation-spec document: `{debug: …, operations: […]}`. -/
structure RestSpec where
  debug : Bool
  operations : List Operation
deriving DecidableEq, Repr

/-- `JSON.stringify` of an operation entry, as `%j` formats it in the error
message (properties holding `undefined` are dropped). -/
def opJson (op : Operation) : String :=
  (jsonStr (.obj (.cons "template" op.template
    (.cons "functions" op.functions .nil)))).getD "undefined"

/-- The `forEach` body of `defineFunctions` (`rest-model.js` lines 213–231),
as an `Except`: the first operation whose `template` is falsy raises the
configuration error message; the per-operation compilation and mixin work is
delegated to the external `RequestBuilder` and carries no further failure in
this module. -/
def compileOps : List Operation → Except String Unit
  | [] => .ok ()
  | op :: rest =>
    if truthy op.template = false then
      .error ("The operation template is missing: " ++ opJson op)
    else
      compileOps rest

/-- `defineFunctions()` (`rest-model.js` lines 209–233): walks the spec's
operations, throwing on the first entry with a missing template, and returns
the `functions` map (which, as written, is the outer empty object — the
inner `var functions` shadows it). -/
def defineFunctions (spec : RestSpec) : Except String (List (String × JSValue)) :=
  match compileOps spec.operations with
  | .error e => .error e
  | .ok _ => .ok []

/-! ## Theorems -/

/-- C1 (counterexample): with no transport error, a 404 response and the
present-but-empty body `""`, the synthesized error carries no `body` field
even though the body argument is present (it is not `undefined`), so
"a body field attached exactly when the body argument is present" is false:
the source's `if (body)` tests truthiness, not presence. -/
theorem c1_counterexample :
    wrapped .nullv (some ⟨404, .undef⟩) (.str "") =
      { error := .http
          { message := "HTTP code: 404", statusCode := 404,
            body := none, headers := none }
        result := .nullv
        response := some ⟨404, .undef⟩ } ∧
    JSValue.str "" ≠ JSValue.undef := by
  constructor
  · decide
  · decide

/-- C1 (amended): if the transport error is falsy, a response is present and
its status code is ≥ 400, the continuation receives a synthesized error with
message `"HTTP code: " + statusCode` and the numeric `statusCode`, with the
`body` field attached exactly when the body argument is truthy and the
`headers` field attached exactly when `response.headers` is truthy, together
with `null` as the result and the response object as the third argument. -/
theorem c1_http_error (err : JSValue) (r : JSResponse) (body : JSValue)
    (herr : truthy err = false) (hst : 400 ≤ r.statusCode) :
    wrapped err (some r) body =
      { error := .http
          { message := "HTTP code: " ++ toString r.statusCode
            statusCode := r.statusCode
            body := if truthy body then some body else none
            headers := if truthy r.headers then some r.headers else none }
        result := .nullv
        response := some r } := by
  simp [wrapped, herr, hst]

/-- C1 (witness): the amended theorem applied to a 404 response carrying
headers and a truthy JSON body. -/
theorem c1_http_error_witness :
    wrapped .nullv (some ⟨404, .obj (.cons "x-req" (.str "1") .nil)⟩)
        (.obj (.cons "error" (.str "not found") .nil)) =
      { error := .http
          { message := "HTTP code: " ++ toString (404 : Int)
            statusCode := 404
            body := if truthy (.obj (.cons "error" (.str "not found") .nil)) then
                some (.obj (.cons "error" (.str "not found") .nil)) else none
            headers := if truthy (JSValue.obj (.cons "x-req" (.str "1") .nil)) then
                some (JSValue.obj (.cons "x-req" (.str "1") .nil)) else none }
        result := .nullv
        response := some ⟨404, .obj (.cons "x-req" (.str "1") .nil)⟩ } :=
  c1_http_error _ _ _ (by decide) (by decide)

/-- C2: when the HTTP-error rule does not match — the transport error is
truthy, or no response object is present, or the status code is < 400 — the
continuation receives `(transportError, body, response)` unchanged; in
particular a falsy transport error with a < 400 response delivers the parsed
body as the result. -/
theorem c2_passthrough (err : JSValue) (response : Option JSResponse)
    (body : JSValue)
    (h : truthy err = true ∨ response = none ∨
      ∃ r, response = some r ∧ r.statusCode < 400) :
    wrapped err response body =
      { error := .js err, result := body, response := response } := by
  cases response with
  | none => rfl
  | some r =>
    have hcond : ¬(truthy err = false ∧ 400 ≤ r.statusCode) := by
      rcases h with h | h | ⟨r2, hr2, hlt⟩
      · simp [h]
      · exact absurd h (by simp)
      · injection hr2 with hr2e
        subst hr2e
        intro hc
        omega
    simp [wrapped, hcond]

/-- C2 (witness): a 200 response with no transport error passes the body
through as the result. -/
theorem c2_passthrough_witness :
    wrapped .nullv (some ⟨200, .undef⟩) (.str "ok") =
      { error := .js .nullv, result := .str "ok",
        response := some ⟨200, .undef⟩ } :=
  c2_passthrough _ _ _ (Or.inr (Or.inr ⟨⟨200, .undef⟩, rfl, by decide⟩))

/-- C3 (counterexample): a truthy transport error delivered together with a
body is passed through as `(error, body, response)` — the result slot holds
the non-null body, so "if error is non-null then result is null" and "every
non-null transport error yields `(e, null, response)`" are false on the
code. -/
theorem c3_counterexample :
    (wrapped (.obj (.cons "message" (.str "connect ECONNREFUSED") .nil))
        (some ⟨200, .undef⟩)
        (.obj (.cons "partial" (.bool true) .nil))).error =
      .js (.obj (.cons "message" (.str "connect ECONNREFUSED") .nil)) ∧
    truthy (.obj (.cons "message" (.str "connect ECONNREFUSED") .nil)) = true ∧
    (wrapped (.obj (.cons "message" (.str "connect ECONNREFUSED") .nil))
        (some ⟨200, .undef⟩)
        (.obj (.cons "partial" (.bool true) .nil))).result =
      .obj (.cons "partial" (.bool true) .nil) ∧
    JSValue.obj (.cons "partial" (.bool true) .nil) ≠ .nullv := by
  refine ⟨by decide, by decide, by decide, by decide⟩

/-- C3 (amended): the envelope invariant that actually holds — whenever the
delivered error is a synthesized HTTP-status error the result is null; a
truthy transport error is passed through together with the transport body as
the result (so the result is null only when the transport reported no
body); and whenever the delivered error slot holds a passed-through
transport error value — in particular when it is null — the result is the
transport-parsed body. -/
theorem c3_envelope (err : JSValue) (response : Option JSResponse)
    (body : JSValue) :
    (∀ e, (wrapped err response body).error = .http e →
      (wrapped err response body).result = .nullv) ∧
    (truthy err = true →
      wrapped err response body =
        { error := .js err, result := body, response := response }) ∧
    (∀ v, (wrapped err response body).error = .js v →
      (wrapped err response body).result = body) := by
  refine ⟨?_, ?_, ?_⟩
  · intro e he
    cases response with
    | none => simp [wrapped] at he
    | some r =>
      by_cases hc : truthy err = false ∧ 400 ≤ r.statusCode
      · simp [wrapped, hc]
      · simp [wrapped, hc] at he
  · intro herr
    cases response with
    | none => rfl
    | some r =>
      have hcond : ¬(truthy err = false ∧ 400 ≤ r.statusCode) := by
        simp [herr]
      simp [wrapped, hcond]
  · intro v hv
    cases response with
    | none => rfl
    | some r =>
      by_cases hc : truthy err = false ∧ 400 ≤ r.statusCode
      · simp [wrapped, hc] at hv
      · simp [wrapped, hc]

/-- C3 (witness): the amended invariant applied to a synthesized 500 error
(null result), to a passed-through truthy transport error, and to a null
transport error with a 200 response (body delivered as the result). -/
theorem c3_envelope_witness :
    (wrapped .nullv (some ⟨500, .undef⟩) .nullv).result = .nullv ∧
    wrapped (.str "boom") (some ⟨200, .undef⟩) (.str "b") =
      { error := .js (.str "boom"), result := .str "b",
        response := some ⟨200, .undef⟩ } ∧
    (wrapped .nullv (some ⟨200, .undef⟩) (.str "ok")).result = .str "ok" :=
  ⟨(c3_envelope .nullv (some ⟨500, .undef⟩) .nullv).1
      ⟨"HTTP code: " ++ toString (500 : Int), 500, none, none⟩ (by decide),
   (c3_envelope (.str "boom") (some ⟨200, .undef⟩) (.str "b")).2.1 (by decide),
   (c3_envelope .nullv (some ⟨200, .undef⟩) (.str "ok")).2.2 .nullv (by decide)⟩

/-- C4: when the caller's continuation is absent, `wrap` returns it
unchanged — no wrapping function is built, so no HTTP-status error is ever
synthesized, nothing is logged and nothing is thrown for that call. -/
theorem c4_wrap_absent {α : Type} :
    wrap (none : Option (Envelope → α)) = none := rfl

/-- C5 (counterexample): `query({name:'x'}, cb)` is not equivalent to
`query({name:'x'}, undefined, cb)` — the shorthand branch resets the query
object to `{}` (`q = {}` on line 188), so the first call sends
`qs.filter = {}` while the second sends `qs.filter = {name:'x'}`. -/
theorem c5_counterexample :
    query (RestResource.make "widgets" "http://api.example.com")
        (.obj (.cons "name" (.str "x") .nil)) (.fn 0) .undef ≠
      query (RestResource.make "widgets" "http://api.example.com")
        (.obj (.cons "name" (.str "x") .nil)) .undef (.fn 0) := by
  decide

/-- C5 (amended): the shorthand `query(q, cb)` (callback in the options
slot, fourth argument absent) is instead equivalent to
`query({}, undefined, cb)`: it discards the supplied query object, sending
an empty filter, and both calls build the same descriptor (the function in
the options slot serializes to an absent options-header value) and hand the
same callback to the normalizer. -/
theorem c5_shorthand (self : RestResource) (q cb : JSValue)
    (hfn : isFunction cb = true) :
    query self q cb .undef = query self (.obj .nil) .undef cb := by
  cases cb <;>
    simp_all [query, queryEffective, isFunction, truthy, optionsHeader,
      jsAnd, jsonStringify, jsonStr]

/-- C5 (witness): the amended equivalence at a concrete query object and
callback. -/
theorem c5_shorthand_witness :
    query (RestResource.make "widgets" "http://api.example.com")
        (.obj (.cons "name" (.str "x") .nil)) (.fn 3) .undef =
      query (RestResource.make "widgets" "http://api.example.com")
        (.obj .nil) .undef (.fn 3) :=
  c5_shorthand _ _ (.fn 3) (by decide)

/-- C6: `find` with a falsy id builds a GET descriptor whose uri is the
collection URL with no id suffix and whose `qs.filter` is the supplied
filter. -/
theorem c6_find_falsy_id (self : RestResource) (id filter options cb : JSValue)
    (h : truthy id = false) :
    (find self id filter options cb).1.uri = self.url ∧
    (find self id filter options cb).1.method = "GET" ∧
    (find self id filter options cb).1.qs = some [("filter", filter)] := by
  refine ⟨?_, rfl, rfl⟩
  simp [find, h]

/-- C6 (witness): `find` with id `null` against a concrete resource. -/
theorem c6_find_falsy_id_witness :
    (find (RestResource.make "widgets" "http://api.example.com") .nullv
        (.obj (.cons "where" (.obj .nil) .nil)) .undef (.fn 0)).1.uri =
      (RestResource.make "widgets" "http://api.example.com").url ∧
    (find (RestResource.make "widgets" "http://api.example.com") .nullv
        (.obj (.cons "where" (.obj .nil) .nil)) .undef (.fn 0)).1.method = "GET" ∧
    (find (RestResource.make "widgets" "http://api.example.com") .nullv
        (.obj (.cons "where" (.obj .nil) .nil)) .undef (.fn 0)).1.qs =
      some [("filter", .obj (.cons "where" (.obj .nil) .nil))] :=
  c6_find_falsy_id _ _ _ _ _ (by decide)

/-- C7 (counterexample): `deleteAll` with the options argument absent
(`undefined`) still carries an `options` key in the descriptor's headers —
holding the value `undefined` — rather than omitting the key entirely, so
"the options header is omitted entirely ... not carried as a null or
undefined value" is false on the code (`headers: {options: options &&
JSON.stringify(options)}` always creates the key). -/
theorem c7_counterexample :
    (deleteAll (RestResource.make "widgets" "http://api.example.com")
        .undef (.fn 0)).1.headers = [("options", JSValue.undef)] ∧
    List.lookup "options"
        (deleteAll (RestResource.make "widgets" "http://api.example.com")
          .undef (.fn 0)).1.headers = some JSValue.undef := by
  refine ⟨by decide, by decide⟩

/-- C7 (amended): every CRUD method's descriptor headers consist of exactly
the `options` key, whose value is the JSON serialization of the options
argument when that argument is truthy and the (falsy) options value itself —
`undefined` or `null`, later dropped by the transport — when it is not; for
`query` the same holds of the effective options value after the arity
rewriting. -/
theorem c7_options_header (self : RestResource)
    (id body filter q options cb : JSValue) :
    (create self body options cb).1.headers =
      [("options", if truthy options then jsonStringify options else options)] ∧
    (update self id body options cb).1.headers =
      [("options", if truthy options then jsonStringify options else options)] ∧
    (delete self id options cb).1.headers =
      [("options", if truthy options then jsonStringify options else options)] ∧
    (deleteAll self options cb).1.headers =
      [("options", if truthy options then jsonStringify options else options)] ∧
    (find self id filter options cb).1.headers =
      [("options", if truthy options then jsonStringify options else options)] ∧
    (query self q options cb).1.headers =
      [("options",
        if truthy (queryEffective q options cb).2.1 then
          jsonStringify (queryEffective q options cb).2.1
        else (queryEffective q options cb).2.1)] := by
  refine ⟨rfl, rfl, rfl, rfl, rfl, rfl⟩

/-- C8 (counterexample): `update` and `delete` invoked with a missing
(`undefined`) id do not fail with a `BindingError`; they construct — and
hand to the transport — a descriptor whose uri has the stringified missing
value appended (`.../undefined`). -/
theorem c8_counterexample :
    (update (RestResource.make "widgets" "http://api.example.com") .undef
        (.obj .nil) .undef (.fn 0)).1.uri =
      "http://api.example.com/widgets/undefined" ∧
    (delete (RestResource.make "widgets" "http://api.example.com") .undef
        .undef (.fn 0)).1.uri =
      "http://api.example.com/widgets/undefined" := by
  refine ⟨by decide, by decide⟩

/-- C8 (amended): the CRUD layer performs no binding check — `update` and
`delete` with a missing id always produce a dispatched PUT/DELETE descriptor
whose uri is the collection URL with `"/undefined"` (the JavaScript string
coercion of the missing argument) appended. -/
theorem c8_missing_id (self : RestResource) (body options cb : JSValue) :
    (update self .undef body options cb).1.uri = self.url ++ "/" ++ "undefined" ∧
    (update self .undef body options cb).1.method = "PUT" ∧
    (delete self .undef options cb).1.uri = self.url ++ "/" ++ "undefined" ∧
    (delete self .undef options cb).1.method = "DELETE" := by
  refine ⟨rfl, rfl, rfl, rfl⟩

/-- Helper for C9: the `forEach` walk raises the configuration error of the
first operation whose template is falsy. -/
theorem compileOps_find (l : List Operation) (op : Operation)
    (h : l.find? (fun o => !truthy o.template) = some op) :
    compileOps l = .error ("The operation template is missing: " ++ opJson op) := by
  induction l with
  | nil => simp [List.find?] at h
  | cons a l ih =>
    by_cases ha : truthy a.template = false
    · simp only [List.find?, ha, Bool.not_false] at h
      injection h with he
      subst he
      simp [compileOps, ha]
    · have ha2 : truthy a.template = true := by
        cases hb : truthy a.template
        · exact absurd hb ha
        · rfl
      simp only [List.find?, ha2, Bool.not_true] at h
      simp only [compileOps, ha2]
      simp only [Bool.true_eq_false, if_false]
      exact ih h

/-- C9: when some operation entry of the spec has a missing (falsy)
`template`, `defineFunctions` fails at load time — before any compiled
function exists to be invoked — with the configuration error message that
serializes the offending entry; the failing entry is the first such one in
the operations array. -/
theorem c9_missing_template (spec : RestSpec) (op : Operation)
    (h : spec.operations.find? (fun o => !truthy o.template) = some op) :
    op ∈ spec.operations ∧ truthy op.template = false ∧
    defineFunctions spec =
      .error ("The operation template is missing: " ++ opJson op) := by
  refine ⟨List.mem_of_find?_eq_some h, ?_, ?_⟩
  · have := List.find?_some h
    simpa using this
  · unfold defineFunctions
    rw [compileOps_find spec.operations op h]

/-- C9 (witness): a one-entry spec whose operation lacks a template fails
with the message serializing the entry (`{}` once its `undefined` fields are
dropped). -/
theorem c9_missing_template_witness :
    (⟨JSValue.undef, JSValue.undef⟩ : Operation) ∈
      (⟨false, [⟨JSValue.undef, JSValue.undef⟩]⟩ : RestSpec).operations ∧
    truthy (⟨JSValue.undef, JSValue.undef⟩ : Operation).template = false ∧
    defineFunctions ⟨false, [⟨JSValue.undef, JSValue.undef⟩]⟩ =
      .error ("The operation template is missing: " ++
        opJson ⟨JSValue.undef, JSValue.undef⟩) :=
  c9_missing_template _ _ (by rfl)

/-- C10: the constructor joins `baseUrl` and `pluralModelName` with exactly
one inserted `'/'` — none when `baseUrl` already ends in `'/'` — and the
stored collection URL is a prefix of the uri of every descriptor any of the
instance's methods constructs. -/
theorem c10_url_join (baseUrl pluralModelName : String)
    (self : RestResource) (id body filter q options cb : JSValue) :
    (RestResource.make pluralModelName baseUrl).url =
      (if baseUrl.takeRight 1 = "/" then baseUrl ++ pluralModelName
       else baseUrl ++ "/" ++ pluralModelName) ∧
    (∃ t, (create self body options cb).1.uri = self.url ++ t) ∧
    (∃ t, (update self id body options cb).1.uri = self.url ++ t) ∧
    (∃ t, (delete self id options cb).1.uri = self.url ++ t) ∧
    (∃ t, (deleteAll self options cb).1.uri = self.url ++ t) ∧
    (∃ t, (find self id filter options cb).1.uri = self.url ++ t) ∧
    (∃ t, (query self q options cb).1.uri = self.url ++ t) := by
  refine ⟨?_, ⟨"", ?_⟩, ⟨"/" ++ jsToString id, ?_⟩, ⟨"/" ++ jsToString id, ?_⟩,
    ⟨"", ?_⟩, ⟨if truthy id then "/" ++ jsToString id else "", rfl⟩, ⟨"", ?_⟩⟩
  · unfold RestResource.make
    split <;> rfl
  · exact (String.append_empty _).symm
  · exact String.append_assoc _ _ _
  · exact String.append_assoc _ _ _
  · exact (String.append_empty _).symm
  · exact (String.append_empty _).symm

end RestModelJs
